import Mathlib

/-!
Verification development for the Disavowed game engine.

This file gives a shallow embedding of the currency ledger, the choice
resolution engine (`GameEngine.process_choice`, `process_custom_choice`,
`_deduct_currency`, `can_afford_choice`, `_generate_next_node` from
`game_engine.py`), the mission creation pipeline (`create_full_mission`,
`generate_choices_for_node`), the guest-session merge from
`google_auth.py`, and the response validation from
`openai_integration.py` (`_validate_and_truncate`).

Python dicts are embedded as insertion-ordered association lists with
unique keys; `dict.get(k, d)` is `dictGetD`, mutation `d[k] = v` is
`dictSet`.  Database/session effects are made explicit: each engine
operation is a pure function from its inputs (including the generation
gateway's response, supplied as data) to an outcome together with the
session-visible state it leaves behind; `create_full_mission` and
`generate_choices_for_node` return the committed database, which changes
only when the source reaches `db.session.commit()`.  Randomness
(`random.choice`, `random.randint`) is passed in as explicit pick values.
-/

/-- A Python dict from currency symbol to integer amount, as an
insertion-ordered association list. -/
abbrev CurrencyMap := List (String × Int)

/-- First value bound to a key, like `k in d` / `d[k]` lookup. -/
def dictGet : CurrencyMap → String → Option Int
  | [], _ => none
  | (k, v) :: rest, key => if k = key then some v else dictGet rest key

/-- Python `d.get(key, dflt)`. -/
def dictGetD (d : CurrencyMap) (key : String) (dflt : Int) : Int :=
  (dictGet d key).getD dflt

/-- Python `d[key] = v`: replace the binding in place, or append a new one. -/
def dictSet : CurrencyMap → String → Int → CurrencyMap
  | [], key, v => [(key, v)]
  | (k, w) :: rest, key, v =>
    if k = key then (key, v) :: rest else (k, w) :: dictSet rest key v

/-- Python `x or {}` on an optional dict column (a null column becomes `{}`). -/
def orEmpty : Option CurrencyMap → CurrencyMap
  | none => []
  | some d => d

/-- One entry of `UserProgress.choice_history`. -/
structure HistoryEntry where
  choice_id : Option Nat
  choice_text : String
  timestamp : Nat
  node_id : Nat
  custom : Bool
deriving DecidableEq

/-- A row of the `transaction` table, as built by the engine. -/
structure Transaction where
  user_id : String
  transaction_type : String
  from_currency : String
  amount : Int
  description : String
  story_node_id : Option Nat
deriving DecidableEq

/-- A row of `story_node`. -/
structure StoryNode where
  id : Nat
  story_id : Option Nat
  narrative_text : String
  character_id : Option Nat
  is_endpoint : Bool
  parent_node_id : Option Nat
  branch_metadata : Option String
deriving DecidableEq

/-- The parts of `StoryChoice.choice_metadata` the engine writes. -/
structure ChoiceMetadata where
  tier : String
  risk_level : String
  character_used : String
  next_node_summary : Option String
  consequence : Option String
deriving DecidableEq

/-- A row of `story_choice`. -/
structure StoryChoice where
  id : Nat
  node_id : Nat
  choice_text : String
  next_node_id : Option Nat
  currency_requirements : Option CurrencyMap
  choice_metadata : Option ChoiceMetadata
deriving DecidableEq

/-- A row of `user_progress` (the fields the verified operations touch). -/
structure UserProgress where
  user_id : String
  current_node_id : Option Nat
  current_story_id : Option Nat
  choice_history : List HistoryEntry
  currency_balances : Option CurrencyMap
  encountered_characters : List Nat
  active_missions : List Nat
deriving DecidableEq

/-- The `story_node` table plus its id sequence. -/
structure NodeStore where
  nodes : List StoryNode
  nextId : Nat
deriving DecidableEq

/-- Lookup `StoryNode.query.get nid`. -/
def findNode (store : NodeStore) (nid : Nat) : Option StoryNode :=
  store.nodes.find? (fun n => n.id == nid)

/-- The result dict of `process_choice` / `process_custom_choice`:
`success`, an optional `message`, an optional `next_node`. -/
structure ChoiceOutcome where
  success : Bool
  message : Option String
  next_node : Option StoryNode
deriving DecidableEq

/-- The dict `{'success': False, 'message': msg}`. -/
def failureOutcome (msg : String) : ChoiceOutcome :=
  { success := false, message := some msg, next_node := none }

/-- The dict `{'success': True, 'next_node': n}`. -/
def okOutcome (n : StoryNode) : ChoiceOutcome :=
  { success := true, message := none, next_node := some n }

/-- Session-visible state left by `process_choice`: its return value, the
live `user_progress` object, the live (possibly memoized) choice object,
the node table, and the `Transaction` rows added to the session. -/
structure ProcessResult where
  outcome : ChoiceOutcome
  progress : UserProgress
  choice : StoryChoice
  store : NodeStore
  new_transactions : List Transaction
deriving DecidableEq

/-- Result of `_generate_next_node`: the node found or created, the node
table, and the choice object (memoized when a node was created). -/
structure GenResult where
  next : Option StoryNode
  store : NodeStore
  choice : StoryChoice
deriving DecidableEq

/-- Session-visible state left by `process_custom_choice`. -/
structure CustomResult where
  outcome : ChoiceOutcome
  progress : UserProgress
  store : NodeStore
  new_transactions : List Transaction
deriving DecidableEq

/-- The static tier table `GameEngine.currency_tiers`. -/
def currency_tiers : String → CurrencyMap
  | "low" => [("💵", 5), ("💷", 4), ("💶", 4), ("💴", 50)]
  | "medium" => [("💵", 15), ("💷", 12), ("💶", 13), ("💴", 150)]
  | "high" => [("💵", 25), ("💷", 20), ("💶", 22), ("💴", 250)]
  | "diamond" => [("💎", 1)]
  | _ => []

/-- The list `cost_tiers = ['low', 'medium', 'high']`. -/
def cost_tiers : List String := ["low", "medium", "high"]

/-- Tier assignment for the i-th generated choice:
`risk_level` if recognized, otherwise `cost_tiers[i]` if `i < 3`,
otherwise `'medium'` (lines 134-138 and 252-256 of `game_engine.py`). -/
def assign_tier (risk_level : Option String) (i : Nat) : String :=
  if cost_tiers.contains (risk_level.getD "medium")
  then risk_level.getD "medium"
  else cost_tiers.getD i "medium"

/-- Model of `random.choice(list(currency_tiers[tier].keys()))`: the pick selects
one key of the tier's table. -/
def symbolPick (tier : String) (pick : Nat) : String :=
  ((currency_tiers tier).map Prod.fst).getD
    (pick % ((currency_tiers tier).map Prod.fst).length) "💵"

/-- The singleton requirement dict `{symbol: currency_tiers[tier][symbol]}`. -/
def make_requirement (tier : String) (pick : Nat) : CurrencyMap :=
  [(symbolPick tier pick, dictGetD (currency_tiers tier) (symbolPick tier pick) 0)]

/-- Embedding of `GameEngine.can_afford_choice`. -/
def can_afford_choice (p : UserProgress) (c : StoryChoice) : Bool :=
  match c.currency_requirements with
  | none => true
  | some reqs =>
    let user_balances := orEmpty p.currency_balances
    reqs.all (fun kv => decide (kv.2 ≤ dictGetD user_balances kv.1 0))

/-- The loop body of `_deduct_currency`: sequentially floor-at-zero
debit each required amount. -/
def deductList (balances : CurrencyMap) : CurrencyMap → CurrencyMap
  | [] => balances
  | (k, a) :: rest =>
    deductList (dictSet balances k (max 0 (dictGetD balances k 0 - a))) rest

/-- Embedding of `GameEngine._deduct_currency`. -/
def deduct_currency (p : UserProgress) (reqs : CurrencyMap) : UserProgress :=
  { p with currency_balances := some (deductList (orEmpty p.currency_balances) reqs) }

/-- Embedding of `GameEngine._generate_next_node`: reuse the memoized node if
`next_node_id` is set; otherwise create a node from the gateway
continuation (`gw`: `none` is a gateway failure, `some d` a parsed
response whose optional `narrative_text` field is `d`), memoizing its id
onto the choice.  A missing current node raises inside the guarded block
and surfaces as `none`. -/
def generate_next_node (c : StoryChoice) (gw : Option (Option String))
    (store : NodeStore) : GenResult :=
  match c.next_node_id with
  | some nid => { next := findNode store nid, store := store, choice := c }
  | none =>
    match findNode store c.node_id with
    | none => { next := none, store := store, choice := c }
    | some current =>
      match gw with
      | none => { next := none, store := store, choice := c }
      | some data =>
        let nxt : StoryNode :=
          { id := store.nextId, story_id := current.story_id,
            narrative_text := data.getD "Your bold action creates unexpected consequences...",
            character_id := current.character_id, is_endpoint := false,
            parent_node_id := some current.id,
            branch_metadata := current.branch_metadata }
        { next := some nxt,
          store := { nodes := store.nodes ++ [nxt], nextId := store.nextId + 1 },
          choice := { c with next_node_id := some nxt.id } }

/-- Embedding of `GameEngine.process_choice`.  On the affordability-gate failure it
returns declined with nothing touched.  `currency_requirements = none`
raises in `_deduct_currency` (`None.items()`), is caught, and the
handler rolls the session back, so the pre-call state is restored.  On a
next-node resolution failure the source returns the failure dict without
`db.session.rollback()`: the debited balances and the pending
`Transaction` rows stay in the session state. -/
def process_choice (p : UserProgress) (c : StoryChoice) (gw : Option (Option String))
    (store : NodeStore) (now : Nat) : ProcessResult :=
  if can_afford_choice p c then
    match c.currency_requirements with
    | none =>
      { outcome := failureOutcome "Server error processing choice",
        progress := p, choice := c, store := store, new_transactions := [] }
    | some reqs =>
      let p1 := deduct_currency p reqs
      let txs : List Transaction := reqs.map (fun kv =>
        { user_id := p.user_id, transaction_type := "choice",
          from_currency := kv.1, amount := kv.2,
          description := "Choice: " ++ c.choice_text.take 50 ++ "...",
          story_node_id := some c.node_id })
      let g := generate_next_node c gw store
      match g.next with
      | some nxt =>
        { outcome := okOutcome nxt,
          progress :=
            { p1 with
              current_node_id := some nxt.id
              choice_history := p1.choice_history ++
                [{ choice_id := some c.id, choice_text := c.choice_text,
                   timestamp := now, node_id := c.node_id, custom := false }] },
          choice := g.choice, store := g.store, new_transactions := txs }
      | none =>
        { outcome := failureOutcome "Failed to generate next story segment",
          progress := p1, choice := g.choice, store := g.store, new_transactions := txs }
  else
    { outcome := failureOutcome "Insufficient currency for this choice",
      progress := p, choice := c, store := store, new_transactions := [] }

/-- Embedding of `GameEngine._generate_custom_response_node`.  A missing current node
raises inside the guarded block and surfaces as `none`. -/
def generate_custom_response_node (currentOpt : Option StoryNode)
    (gw : Option (Option String)) (store : NodeStore) : Option StoryNode × NodeStore :=
  match currentOpt with
  | none => (none, store)
  | some current =>
    match gw with
    | none => (none, store)
    | some data =>
      let nxt : StoryNode :=
        { id := store.nextId, story_id := current.story_id,
          narrative_text := data.getD "Your bold action creates unexpected consequences...",
          character_id := current.character_id, is_endpoint := false,
          parent_node_id := some current.id,
          branch_metadata := current.branch_metadata }
      (some nxt, { nodes := store.nodes ++ [nxt], nextId := store.nextId + 1 })

/-- Embedding of `GameEngine.process_custom_choice`: a custom action costs the fixed
diamond price from the tier table. -/
def process_custom_choice (p : UserProgress) (custom_text : String)
    (gw : Option (Option String)) (store : NodeStore) (now : Nat) : CustomResult :=
  let diamond_cost := dictGetD (currency_tiers "diamond") "💎" 0
  let user_balances := orEmpty p.currency_balances
  if dictGetD user_balances "💎" 0 < diamond_cost then
    { outcome := failureOutcome "Insufficient diamonds for custom choice",
      progress := p, store := store, new_transactions := [] }
  else
    let p1 := deduct_currency p [("💎", diamond_cost)]
    let tx : Transaction :=
      { user_id := p.user_id, transaction_type := "custom_choice",
        from_currency := "💎", amount := diamond_cost,
        description := "Custom choice: " ++ custom_text.take 50 ++ "...",
        story_node_id := p.current_node_id }
    match p.current_node_id.bind (findNode store) with
    | none =>
      { outcome := failureOutcome "Failed to process custom choice",
        progress := p1, store := store, new_transactions := [tx] }
    | some current =>
      match generate_custom_response_node (some current) gw store with
      | (none, store1) =>
        { outcome := failureOutcome "Failed to process custom choice",
          progress := p1, store := store1, new_transactions := [tx] }
      | (some nxt, store1) =>
        { outcome := okOutcome nxt,
          progress :=
            { p1 with
              current_node_id := some nxt.id
              choice_history := p1.choice_history ++
                [{ choice_id := none, choice_text := custom_text, timestamp := now,
                   node_id := current.id, custom := true }] },
          store := store1, new_transactions := [tx] }

/-- A `Character` row (only the id participates in the verified flow). -/
structure Character where
  id : Nat
deriving DecidableEq

/-- The fields of one choice dict in a gateway response; absent keys
are `none`. -/
structure ChoiceFields where
  text : Option String
  character_used : Option String
  risk_level : Option String
  next_node_summary : Option String
  consequence : Option String
deriving DecidableEq

/-- One entry of a gateway `choices` array: a dict, or a value of a
different type, which the creation loops skip with a warning. -/
inductive ChoiceData where
  | dict (f : ChoiceFields)
  | nondict
deriving DecidableEq

/-- The parsed full-mission gateway response; each field is `none` when
its key is absent from the returned dict. -/
structure MissionStoryData where
  mission_title : Option String
  mission_description : Option String
  objective : Option String
  difficulty : Option String
  deadline : Option String
  setting : Option String
  opening_narrative : Option String
  choices : Option (List ChoiceData)
deriving DecidableEq

/-- A row of `story_generation` (the generated-story blob is not
consulted by any verified operation). -/
structure StoryGenerationRec where
  id : Nat
  primary_conflict : String
  setting : String
  narrative_style : String
  mood : String
deriving DecidableEq

/-- A row of `mission`. -/
structure MissionRec where
  id : Nat
  user_id : String
  title : String
  description : String
  giver_id : Nat
  target_id : Nat
  objective : String
  difficulty : String
  reward_currency : String
  reward_amount : Nat
  deadline : String
  story_id : Nat
deriving DecidableEq

/-- The committed database: the tables `create_full_mission` and
`generate_choices_for_node` write, plus their id sequences. -/
structure Database where
  stories : List StoryGenerationRec
  missions : List MissionRec
  nodes : List StoryNode
  choices : List StoryChoice
  nextStoryId : Nat
  nextMissionId : Nat
  nextNodeId : Nat
  nextChoiceId : Nat
deriving DecidableEq

/-- Python `if not x: x = dflt` on an optional string (`None` and `''` are
both falsy). -/
def orDefaultStr (o : Option String) (dflt : String) : String :=
  match o with
  | none => dflt
  | some s => if s = "" then dflt else s

/-- The required-field check of `create_full_mission` (lines 59-63). -/
def required_fields_present (d : MissionStoryData) : Bool :=
  d.mission_title.isSome && d.mission_description.isSome && d.objective.isSome
    && d.opening_narrative.isSome && d.choices.isSome

/-- The choice-creation loop of `create_full_mission` (lines 128-155):
`i` is the enumeration index, `nid` the next choice id, non-dict entries
are skipped. -/
def build_mission_choices (node_id : Nat) (picks : Nat → Nat) :
    Nat → Nat → List ChoiceData → List StoryChoice
  | _, _, [] => []
  | i, nid, ChoiceData.nondict :: rest => build_mission_choices node_id picks (i + 1) nid rest
  | i, nid, ChoiceData.dict f :: rest =>
    let tier := assign_tier f.risk_level i
    { id := nid, node_id := node_id, choice_text := f.text.getD "Take action",
      next_node_id := none,
      currency_requirements := some (make_requirement tier (picks i)),
      choice_metadata := some
        { tier := tier, risk_level := f.risk_level.getD "medium",
          character_used := f.character_used.getD "Unknown",
          next_node_summary := some (f.next_node_summary.getD ""),
          consequence := none } }
      :: build_mission_choices node_id picks (i + 1) (nid + 1) rest

/-- Embedding of `GameEngine.create_full_mission`.  `dataOpt` is the gateway result
(`none` on generation failure), `reward` drives `random.randint(2, 5)`,
`picks` drives the per-choice `random.choice` of a currency symbol.
Returns the created (mission, opening node) and the committed database:
every failure path returns before `db.session.commit()`, so the
committed database is unchanged there. -/
def create_full_mission (user_id : String)
    (mission_giver villain _partner _random_character : Character)
    (narrative_style mood : Option String) (dataOpt : Option MissionStoryData)
    (reward : Nat) (picks : Nat → Nat) (db : Database) :
    Option (MissionRec × StoryNode) × Database :=
  let ns := orDefaultStr narrative_style "Modern Espionage Thriller"
  let md := orDefaultStr mood "Action-packed and Suspenseful"
  match dataOpt with
  | none => (none, db)
  | some d =>
    if required_fields_present d then
      let choices_data := d.choices.getD []
      if choices_data.isEmpty then (none, db)
      else
        let story : StoryGenerationRec :=
          { id := db.nextStoryId,
            primary_conflict := d.objective.getD "Complete mission objectives",
            setting := d.setting.getD "Various espionage locations",
            narrative_style := ns, mood := md }
        let mission : MissionRec :=
          { id := db.nextMissionId, user_id := user_id,
            title := d.mission_title.getD "Classified Operation",
            description := d.mission_description.getD "Espionage mission",
            giver_id := mission_giver.id, target_id := villain.id,
            objective := d.objective.getD "Complete mission objectives",
            difficulty := d.difficulty.getD "medium",
            reward_currency := "💎", reward_amount := 2 + reward % 4,
            deadline := d.deadline.getD "48 hours", story_id := db.nextStoryId }
        let story_node : StoryNode :=
          { id := db.nextNodeId, story_id := some db.nextStoryId,
            narrative_text := d.opening_narrative.getD "Mission begins...",
            character_id := some mission_giver.id, is_endpoint := false,
            parent_node_id := none, branch_metadata := some "opening" }
        let new_choices :=
          build_mission_choices db.nextNodeId picks 0 db.nextChoiceId (choices_data.take 3)
        (some (mission, story_node),
          { stories := db.stories ++ [story], missions := db.missions ++ [mission],
            nodes := db.nodes ++ [story_node], choices := db.choices ++ new_choices,
            nextStoryId := db.nextStoryId + 1, nextMissionId := db.nextMissionId + 1,
            nextNodeId := db.nextNodeId + 1,
            nextChoiceId := db.nextChoiceId + new_choices.length })
    else (none, db)

/-- The parsed choices-only gateway response. -/
structure ChoicesResponse where
  choices : Option (List ChoiceData)
deriving DecidableEq

/-- The choice-creation loop of `generate_choices_for_node`
(lines 246-273). -/
def build_node_choices (node_id : Nat) (picks : Nat → Nat) :
    Nat → Nat → List ChoiceData → List StoryChoice
  | _, _, [] => []
  | i, nid, ChoiceData.nondict :: rest => build_node_choices node_id picks (i + 1) nid rest
  | i, nid, ChoiceData.dict f :: rest =>
    let tier := assign_tier f.risk_level i
    { id := nid, node_id := node_id, choice_text := f.text.getD "Take action",
      next_node_id := none,
      currency_requirements := some (make_requirement tier (picks i)),
      choice_metadata := some
        { tier := tier, risk_level := f.risk_level.getD "medium",
          character_used := f.character_used.getD "Unknown",
          next_node_summary := none,
          consequence := some (f.consequence.getD "") } }
      :: build_node_choices node_id picks (i + 1) (nid + 1) rest

/-- Embedding of `GameEngine.generate_choices_for_node`: returns the created choices
and the committed database. -/
def generate_choices_for_node (node : StoryNode) (resp : Option ChoicesResponse)
    (picks : Nat → Nat) (db : Database) : List StoryChoice × Database :=
  match resp with
  | none => ([], db)
  | some r =>
    let new_choices := build_node_choices node.id picks 0 db.nextChoiceId
      ((r.choices.getD []).take 3)
    (new_choices,
      { db with
        choices := db.choices ++ new_choices
        nextChoiceId := db.nextChoiceId + new_choices.length })

/-- Python truthiness of an optional integer id column. -/
def truthyId (o : Option Nat) : Bool := o.getD 0 != 0

/-- The loop merging guest balances into the authenticated balances
(`google_auth.py` lines 144-148). -/
def merge_currency (user_balances : CurrencyMap) : CurrencyMap → CurrencyMap
  | [] => user_balances
  | (k, a) :: rest =>
    let ub :=
      if (dictGet user_balances k).isSome
      then dictSet user_balances k (dictGetD user_balances k 0 + a)
      else dictSet user_balances k a
    merge_currency ub rest

/-- The guest-progress merge block of the OAuth callback
(`google_auth.py` lines 134-158). -/
def merge_guest_progress (guest authp : UserProgress) : UserProgress :=
  let authp :=
    if truthyId guest.current_node_id then
      { authp with
        current_node_id := guest.current_node_id
        current_story_id := guest.current_story_id }
    else authp
  let ub := merge_currency (orEmpty authp.currency_balances)
    (orEmpty guest.currency_balances)
  { authp with
    currency_balances := some ub
    choice_history := authp.choice_history ++ guest.choice_history
    encountered_characters := authp.encountered_characters ++ guest.encountered_characters
    active_missions := authp.active_missions ++ guest.active_missions }

/-- The table `OpenAIIntegration.SCHEMA_LIMITS`. -/
def SCHEMA_LIMITS : List (String × Nat) :=
  [("mission_title", 200), ("mission_description", 1000), ("objective", 255),
   ("deadline", 200), ("setting", 255), ("narrative_style", 100), ("mood", 100),
   ("opening_narrative", 1500), ("choice_text", 255), ("primary_conflict", 255),
   ("narrative_text", 1500), ("character_name", 200), ("next_node_summary", 255)]

/-- Python `key in SCHEMA_LIMITS` / `SCHEMA_LIMITS[key]`. -/
def schemaLimit (key : String) : Option Nat :=
  SCHEMA_LIMITS.lookup key

/-- A parsed JSON value; text is a character list so that field lengths
are character counts as in Python. -/
inductive Json where
  | str : List Char → Json
  | atom : Int → Json
  | arr : List Json → Json
  | obj : List (String × Json) → Json

mutual

/-- Embedding of `OpenAIIntegration._validate_and_truncate`: recursively truncate
over-limit string fields of dicts, descending into nested dicts and
lists; non-dict non-list values pass through. -/
def validateAndTruncate : Json → Json
  | Json.str s => Json.str s
  | Json.atom n => Json.atom n
  | Json.arr xs => Json.arr (validateArr xs)
  | Json.obj kvs => Json.obj (validateObjEntries kvs)

/-- The list comprehension branch of `_validate_and_truncate`. -/
def validateArr : List Json → List Json
  | [] => []
  | x :: xs => validateAndTruncate x :: validateArr xs

/-- The dict branch of `_validate_and_truncate`. -/
def validateObjEntries : List (String × Json) → List (String × Json)
  | [] => []
  | (k, v) :: rest => validateEntry k v :: validateObjEntries rest

/-- One `(key, value)` item of the dict branch: a string value with a
known schema limit is truncated when over the limit and kept otherwise;
dict and list values are validated recursively; anything else is kept. -/
def validateEntry (k : String) : Json → String × Json
  | Json.str s =>
    match schemaLimit k with
    | some m => if m < s.length then (k, Json.str (s.take m)) else (k, Json.str s)
    | none => (k, Json.str s)
  | Json.arr xs => (k, Json.arr (validateArr xs))
  | Json.obj kvs => (k, Json.obj (validateObjEntries kvs))
  | Json.atom n => (k, Json.atom n)

end

/-- The metadata tier recorded on each created choice. -/
def tiersOf (cs : List StoryChoice) : List (Option String) :=
  cs.map (fun c => c.choice_metadata.map ChoiceMetadata.tier)

/-- A concrete opening node used by the concrete instances below. -/
def exNode1 : StoryNode :=
  { id := 1, story_id := some 1, narrative_text := "You stand at the embassy gate.",
    character_id := some 3, is_endpoint := false, parent_node_id := none,
    branch_metadata := some "opening" }

/-- A concrete already-generated continuation node. -/
def exNode2 : StoryNode :=
  { id := 2, story_id := some 1, narrative_text := "The guard waves you through.",
    character_id := some 3, is_endpoint := false, parent_node_id := some 1,
    branch_metadata := some "opening" }

/-- A node table holding only the opening node. -/
def exStore : NodeStore := { nodes := [exNode1], nextId := 2 }

/-- A node table holding the opening node and its continuation. -/
def exStore2 : NodeStore := { nodes := [exNode1, exNode2], nextId := 3 }

/-- A player progress record with a 20💵 balance. -/
def exProgress : UserProgress :=
  { user_id := "u1", current_node_id := some 1, current_story_id := some 1,
    choice_history := [], currency_balances := some [("💵", 20)],
    encountered_characters := [], active_missions := [] }

/-- A player progress record with a 50💵 balance. -/
def exProgress50 : UserProgress :=
  { exProgress with currency_balances := some [("💵", 50)] }

/-- A player progress record that can afford neither a 15💵 choice nor a
1💎 custom choice. -/
def exPoor : UserProgress :=
  { exProgress with user_id := "u2", currency_balances := some [("💵", 3)] }

/-- A catalog choice on the opening node costing 15💵, not yet resolved. -/
def exChoice : StoryChoice :=
  { id := 7, node_id := 1, choice_text := "Bribe the guard", next_node_id := none,
    currency_requirements := some [("💵", 15)], choice_metadata := none }

/-- The same catalog choice with its next node memoized to node 2. -/
def exChoiceMemo : StoryChoice := { exChoice with next_node_id := some 2 }

/-- A concrete requirement mapping over two kinds. -/
def exReqs : CurrencyMap := [("💵", 15), ("💎", 100)]

/-- A concrete gateway choice dict. -/
def exFields : ChoiceFields :=
  { text := some "Sneak in with Vera", character_used := some "Vera",
    risk_level := some "low", next_node_summary := some "You slip inside.",
    consequence := none }

/-- A gateway choice dict whose declared risk level is not recognized. -/
def exFieldsInvalid : ChoiceFields := { exFields with risk_level := some "invalid" }

/-- An empty committed database. -/
def exDb : Database :=
  { stories := [], missions := [], nodes := [], choices := [],
    nextStoryId := 1, nextMissionId := 1, nextNodeId := 1, nextChoiceId := 1 }

/-- A gateway full-mission result missing its opening narrative. -/
def exBadData : MissionStoryData :=
  { mission_title := some "Operation Nightfall",
    mission_description := some "Recover the stolen ledger.",
    objective := some "Retrieve the ledger", difficulty := some "medium",
    deadline := some "48 hours", setting := some "Prague",
    opening_narrative := none, choices := some [ChoiceData.dict exFields] }

/-- A concrete character. -/
def exCharacter : Character := { id := 3 }

/-- A concrete guest progress record for the merge scenario. -/
def exGuest : UserProgress :=
  { user_id := "guest-1", current_node_id := some 4, current_story_id := some 2,
    choice_history := [{ choice_id := some 9, choice_text := "Run", timestamp := 5,
                         node_id := 4, custom := false }],
    currency_balances := some [("💵", 10)],
    encountered_characters := [7], active_missions := [2] }

/-- A concrete authenticated progress record for the merge scenario. -/
def exAuth : UserProgress :=
  { user_id := "user_5", current_node_id := none, current_story_id := none,
    choice_history := [{ choice_id := some 1, choice_text := "Accept", timestamp := 1,
                         node_id := 1, custom := false }],
    currency_balances := some [("💵", 50), ("💎", 50)],
    encountered_characters := [3], active_missions := [1] }

/-- A 150-character generated text, longer than the `mood` limit. -/
def exLongText : List Char := List.replicate 150 'a'

/-- A 4-character generated text, within every limit. -/
def exShortText : List Char := ['c', 'a', 'l', 'm']

/-- The catalog choice built from `exFields` at position 0 with pick 0:
tier low, symbol 💵, cost 5. -/
def exBuiltChoice : StoryChoice :=
  { id := 1, node_id := 1, choice_text := "Sneak in with Vera", next_node_id := none,
    currency_requirements := some [("💵", 5)],
    choice_metadata := some
      { tier := "low", risk_level := "low", character_used := "Vera",
        next_node_summary := some "You slip inside.", consequence := none } }

/-- A choice whose requirement is a singleton `{kind: amount}` with the
kind listed for the choice's recorded tier in the static tier table and
the amount equal to that tier's fixed amount for the kind. -/
def tierPricedSingleton (c : StoryChoice) : Prop :=
  ∃ md k a, c.choice_metadata = some md ∧ cost_tiers.contains md.tier = true ∧
    c.currency_requirements = some [(k, a)] ∧ (k, a) ∈ currency_tiers md.tier

theorem dictGet_dictSet_self (d : CurrencyMap) (k : String) (v : Int) :
    dictGet (dictSet d k v) k = some v := by
  induction d with
  | nil => simp [dictSet, dictGet]
  | cons hd tl ih =>
    obtain ⟨k', w⟩ := hd
    by_cases h : k' = k
    · simp [dictSet, h, dictGet]
    · simp [dictSet, h, dictGet, ih]

theorem dictGet_dictSet_ne (d : CurrencyMap) (k k' : String) (v : Int) (h : k' ≠ k) :
    dictGet (dictSet d k v) k' = dictGet d k' := by
  induction d with
  | nil => simp [dictSet, dictGet, Ne.symm h]
  | cons hd tl ih =>
    obtain ⟨k₀, w⟩ := hd
    by_cases h0 : k₀ = k
    · subst h0
      simp [dictSet, dictGet, Ne.symm h]
    · simp [dictSet, h0, dictGet, ih]

theorem dictGet_eq_none_of_not_mem (d : CurrencyMap) (k : String)
    (h : k ∉ d.map Prod.fst) : dictGet d k = none := by
  induction d with
  | nil => simp [dictGet]
  | cons hd tl ih =>
    obtain ⟨k₀, w⟩ := hd
    simp only [List.map_cons, List.mem_cons, not_or] at h
    simp [dictGet, Ne.symm h.1, ih h.2]

theorem mem_of_dictGet (d : CurrencyMap) (k : String) (v : Int)
    (h : dictGet d k = some v) : (k, v) ∈ d := by
  induction d with
  | nil => simp [dictGet] at h
  | cons hd tl ih =>
    obtain ⟨k₀, w⟩ := hd
    by_cases h0 : k₀ = k
    · subst h0
      simp [dictGet] at h
      simp [h]
    · simp [dictGet, h0] at h
      exact List.mem_cons_of_mem _ (ih h)

theorem exists_dictGet_of_mem_keys (d : CurrencyMap) (k : String)
    (h : k ∈ d.map Prod.fst) : ∃ v, dictGet d k = some v := by
  induction d with
  | nil => simp at h
  | cons hd tl ih =>
    obtain ⟨k₀, w⟩ := hd
    by_cases h0 : k₀ = k
    · exact ⟨w, by simp [dictGet, h0]⟩
    · simp only [List.map_cons, List.mem_cons] at h
      rcases h with h | h
      · exact absurd h.symm h0
      · simpa [dictGet, h0] using ih h

theorem dictGetD_dictSet_self (d : CurrencyMap) (k : String) (v v₀ : Int) :
    dictGetD (dictSet d k v) k v₀ = v := by
  simp [dictGetD, dictGet_dictSet_self]

theorem dictGetD_dictSet_ne (d : CurrencyMap) (k k' : String) (v v₀ : Int) (h : k' ≠ k) :
    dictGetD (dictSet d k v) k' v₀ = dictGetD d k' v₀ := by
  simp [dictGetD, dictGet_dictSet_ne _ _ _ _ h]

theorem deductList_get_not_mem (reqs : CurrencyMap) (b : CurrencyMap) (k : String)
    (h : k ∉ reqs.map Prod.fst) : dictGet (deductList b reqs) k = dictGet b k := by
  induction reqs generalizing b with
  | nil => simp [deductList]
  | cons hd tl ih =>
    obtain ⟨k₀, a₀⟩ := hd
    simp only [List.map_cons, List.mem_cons, not_or] at h
    rw [deductList, ih _ h.2, dictGet_dictSet_ne _ _ _ _ h.1]

theorem deductList_get_mem (reqs : CurrencyMap) (b : CurrencyMap) (k : String) (a : Int)
    (hnd : (reqs.map Prod.fst).Nodup) (hmem : (k, a) ∈ reqs) :
    dictGetD (deductList b reqs) k 0 = max 0 (dictGetD b k 0 - a) := by
  induction reqs generalizing b with
  | nil => simp at hmem
  | cons hd tl ih =>
    obtain ⟨k₀, a₀⟩ := hd
    simp only [List.map_cons, List.nodup_cons] at hnd
    rcases List.mem_cons.1 hmem with h | h
    · injection h with hk ha
      subst hk
      subst ha
      rw [deductList, dictGetD, deductList_get_not_mem _ _ _ hnd.1, dictGet_dictSet_self]
      rfl
    · have hk : k ≠ k₀ := by
        intro he
        exact hnd.1 (he ▸ (List.mem_map.2 ⟨(k, a), h, rfl⟩))
      rw [deductList, ih _ hnd.2 h, dictGetD_dictSet_ne _ _ _ _ _ hk]

theorem deductList_nonneg (reqs : CurrencyMap) (b : CurrencyMap) (k : String)
    (h : 0 ≤ dictGetD b k 0) : 0 ≤ dictGetD (deductList b reqs) k 0 := by
  induction reqs generalizing b with
  | nil => simpa [deductList] using h
  | cons hd tl ih =>
    obtain ⟨k₀, a₀⟩ := hd
    rw [deductList]
    refine ih _ ?_
    by_cases hk : k = k₀
    · subst hk
      simp [dictGetD_dictSet_self]
    · rw [dictGetD_dictSet_ne _ _ _ _ _ hk]
      exact h

theorem merge_currency_getD (gb : CurrencyMap) (ub : CurrencyMap)
    (hnd : (gb.map Prod.fst).Nodup) (k : String) :
    dictGetD (merge_currency ub gb) k 0 = dictGetD ub k 0 + dictGetD gb k 0 := by
  induction gb generalizing ub with
  | nil => simp [merge_currency, dictGetD, dictGet]
  | cons hd tl ih =>
    obtain ⟨k₀, a₀⟩ := hd
    simp only [List.map_cons, List.nodup_cons] at hnd
    have hstep : (if (dictGet ub k₀).isSome
         then dictSet ub k₀ (dictGetD ub k₀ 0 + a₀)
         else dictSet ub k₀ a₀)
          = dictSet ub k₀ (dictGetD ub k₀ 0 + a₀) := by
      by_cases hs : (dictGet ub k₀).isSome
      · simp [hs]
      · rw [Option.not_isSome_iff_eq_none] at hs
        simp [hs, dictGetD]
    rw [merge_currency, hstep, ih _ hnd.2]
    by_cases hk : k = k₀
    · subst hk
      have htl : dictGet tl k = none := dictGet_eq_none_of_not_mem _ _ hnd.1
      have h1 : dictGetD ((k, a₀) :: tl) k 0 = a₀ := by simp [dictGetD, dictGet]
      have h2 : dictGetD tl k 0 = 0 := by simp [dictGetD, htl]
      rw [dictGetD_dictSet_self, h1, h2, add_zero]
    · have h3 : dictGetD ((k₀, a₀) :: tl) k 0 = dictGetD tl k 0 := by
        simp [dictGetD, dictGet, Ne.symm hk]
      rw [dictGetD_dictSet_ne _ _ _ _ _ hk, h3]

theorem validateObjEntries_eq_map (kvs : List (String × Json)) :
    validateObjEntries kvs = kvs.map (fun p => validateEntry p.1 p.2) := by
  induction kvs with
  | nil => simp [validateObjEntries]
  | cons hd tl ih =>
    obtain ⟨k, v⟩ := hd
    simp [validateObjEntries, ih]

theorem validateArr_eq_map (xs : List Json) :
    validateArr xs = xs.map validateAndTruncate := by
  induction xs with
  | nil => simp [validateArr]
  | cons hd tl ih => simp [validateArr, ih]

theorem assign_tier_mem_cost_tiers (r : Option String) (i : Nat) :
    cost_tiers.contains (assign_tier r i) = true := by
  unfold assign_tier
  split
  · assumption
  · rcases i with _ | _ | _ | n
    · decide
    · decide
    · decide
    · simp only [cost_tiers, List.getD_cons_succ, List.getD_nil]
      decide

theorem currency_tiers_ne_nil (t : String) (h : cost_tiers.contains t = true) :
    currency_tiers t ≠ [] := by
  have hm : t ∈ cost_tiers := by simpa using h
  fin_cases hm <;> decide

theorem list_getD_mem {α : Type} (l : List α) (i : Nat) (d : α) (h : i < l.length) :
    l.getD i d ∈ l := by
  induction l generalizing i with
  | nil => simp at h
  | cons hd tl ih =>
    cases i with
    | zero => simp
    | succ n =>
      simp only [List.getD_cons_succ]
      exact List.mem_cons_of_mem _ (ih _ (by simpa using h))

theorem make_requirement_spec (tier : String) (pick : Nat)
    (h : currency_tiers tier ≠ []) :
    ∃ k a, make_requirement tier pick = [(k, a)] ∧ (k, a) ∈ currency_tiers tier := by
  have hlen : 0 < ((currency_tiers tier).map Prod.fst).length := by
    simpa [List.length_pos] using h
  have hkmem : symbolPick tier pick ∈ (currency_tiers tier).map Prod.fst :=
    list_getD_mem _ _ _ (Nat.mod_lt _ hlen)
  obtain ⟨v, hv⟩ := exists_dictGet_of_mem_keys _ _ hkmem
  refine ⟨symbolPick tier pick, v, ?_, mem_of_dictGet _ _ _ hv⟩
  unfold make_requirement
  rw [dictGetD, hv]
  rfl

/-- Claim C9: the affordability check returns true if and only if, for
every kind in the requirement mapping, the player's balance for that
kind (0 for an absent kind) is at least the required amount; an absent
or empty requirement is vacuously always affordable. -/
theorem can_afford_choice_iff (p : UserProgress) (c : StoryChoice) :
    can_afford_choice p c = true ↔
      ∀ kv ∈ c.currency_requirements.getD [],
        kv.2 ≤ dictGetD (orEmpty p.currency_balances) kv.1 0 := by
  cases hr : c.currency_requirements with
  | none => simp [can_afford_choice, hr]
  | some reqs => simp [can_afford_choice, hr, List.all_eq_true]

/-- Witness for C9 at a concrete player and choice. -/
theorem can_afford_choice_iff_witness :
    can_afford_choice exProgress50 exChoice = true ↔
      ∀ kv ∈ exChoice.currency_requirements.getD [],
        kv.2 ≤ dictGetD (orEmpty exProgress50.currency_balances) kv.1 0 :=
  can_afford_choice_iff exProgress50 exChoice

/-- Claim C4: `_deduct_currency` sets, for each kind in the requirement,
the new balance to `max 0 (old - amount)`, leaves every other kind
unchanged, and therefore keeps every balance non-negative, even when the
debited amount exceeds the old balance. -/
theorem deduct_currency_floor (p : UserProgress) (reqs : CurrencyMap)
    (hnd : (reqs.map Prod.fst).Nodup) :
    (∀ kv ∈ reqs,
      dictGetD (orEmpty (deduct_currency p reqs).currency_balances) kv.1 0
        = max 0 (dictGetD (orEmpty p.currency_balances) kv.1 0 - kv.2)) ∧
    (∀ k, k ∉ reqs.map Prod.fst →
      dictGetD (orEmpty (deduct_currency p reqs).currency_balances) k 0
        = dictGetD (orEmpty p.currency_balances) k 0) ∧
    (∀ k, 0 ≤ dictGetD (orEmpty p.currency_balances) k 0 →
      0 ≤ dictGetD (orEmpty (deduct_currency p reqs).currency_balances) k 0) := by
  refine ⟨?_, ?_, ?_⟩
  · intro kv hkv
    exact deductList_get_mem _ _ _ _ hnd hkv
  · intro k hk
    have h := deductList_get_not_mem reqs (orEmpty p.currency_balances) k hk
    show dictGetD (deductList (orEmpty p.currency_balances) reqs) k 0
      = dictGetD (orEmpty p.currency_balances) k 0
    simp [dictGetD, h]
  · intro k hk
    exact deductList_nonneg _ _ _ hk

/-- Witness for C4: debiting `{💵:15, 💎:100}` from a 50💵 balance. -/
theorem deduct_currency_floor_witness :
    (exReqs.map Prod.fst).Nodup ∧
    dictGetD (orEmpty (deduct_currency exProgress50 exReqs).currency_balances) "💵" 0
      = max 0 (dictGetD (orEmpty exProgress50.currency_balances) "💵" 0 - 15) ∧
    dictGetD (orEmpty (deduct_currency exProgress50 exReqs).currency_balances) "💎" 0
      = max 0 (dictGetD (orEmpty exProgress50.currency_balances) "💎" 0 - 100) ∧
    dictGetD (orEmpty (deduct_currency exProgress50 exReqs).currency_balances) "💷" 0
      = dictGetD (orEmpty exProgress50.currency_balances) "💷" 0 ∧
    0 ≤ dictGetD (orEmpty (deduct_currency exProgress50 exReqs).currency_balances) "💎" 0 :=
  ⟨by decide,
   (deduct_currency_floor exProgress50 exReqs (by decide)).1 ("💵", 15) (by decide),
   (deduct_currency_floor exProgress50 exReqs (by decide)).1 ("💎", 100) (by decide),
   (deduct_currency_floor exProgress50 exReqs (by decide)).2.1 "💷" (by decide),
   (deduct_currency_floor exProgress50 exReqs (by decide)).2.2 "💎" (by decide)⟩

/-- Claim C1 (code bug): when the gateway returns no continuation for an
unresolved choice, `process_choice` answers with the failure message but
leaves the currency debit in the player's balances and the `Transaction`
row pending — `db.session.rollback()` is never called on this path (only
the exception handler rolls back), so the balance after the failed
attempt does not equal the balance before it. -/
theorem process_choice_gateway_failure_keeps_debit :
    (process_choice exProgress exChoice none exStore 0).outcome
        = failureOutcome "Failed to generate next story segment" ∧
    dictGetD (orEmpty
        (process_choice exProgress exChoice none exStore 0).progress.currency_balances)
      "💵" 0 = 5 ∧
    dictGetD (orEmpty exProgress.currency_balances) "💵" 0 = 20 ∧
    (process_choice exProgress exChoice none exStore 0).new_transactions.length = 1 ∧
    ¬ dictGetD (orEmpty
        (process_choice exProgress exChoice none exStore 0).progress.currency_balances)
      "💵" 0 = dictGetD (orEmpty exProgress.currency_balances) "💵" 0 := by
  decide

/-- Counterexample to claim C3 as stated: resolving the same memoized
choice (cost 15💵, balance 50💵) twice succeeds twice with the same
next node and creates no node, but the balance ends at 20, not at the
35 that charging only once across the two resolutions would leave. -/
theorem memoized_replay_double_charge :
    (process_choice exProgress50 exChoiceMemo none exStore2 0).outcome = okOutcome exNode2 ∧
    (process_choice (process_choice exProgress50 exChoiceMemo none exStore2 0).progress
        exChoiceMemo none (process_choice exProgress50 exChoiceMemo none exStore2 0).store
        1).outcome = okOutcome exNode2 ∧
    (process_choice exProgress50 exChoiceMemo none exStore2 0).store = exStore2 ∧
    dictGetD (orEmpty (process_choice
        (process_choice exProgress50 exChoiceMemo none exStore2 0).progress
        exChoiceMemo none (process_choice exProgress50 exChoiceMemo none exStore2 0).store
        1).progress.currency_balances) "💵" 0 = 20 ∧
    ¬ dictGetD (orEmpty (process_choice
        (process_choice exProgress50 exChoiceMemo none exStore2 0).progress
        exChoiceMemo none (process_choice exProgress50 exChoiceMemo none exStore2 0).store
        1).progress.currency_balances) "💵" 0
      = dictGetD (orEmpty exProgress50.currency_balances) "💵" 0 - 15 := by
  decide

/-- Claim C2: a resolution that fails the affordability gate — catalog
choice or custom choice — returns a declined outcome with an
insufficient-funds reason and mutates nothing: progress (balances,
history, pointers), node table, and pending ledger rows are unchanged. -/
theorem affordability_gate_no_mutation (p : UserProgress) (c : StoryChoice)
    (gw : Option (Option String)) (store : NodeStore) (now : Nat)
    (h : can_afford_choice p c = false) :
    process_choice p c gw store now =
      { outcome := failureOutcome "Insufficient currency for this choice",
        progress := p, choice := c, store := store, new_transactions := [] } ∧
    ∀ (txt : String) (gw2 : Option (Option String)) (st2 : NodeStore) (t2 : Nat),
      dictGetD (orEmpty p.currency_balances) "💎" 0 < 1 →
      process_custom_choice p txt gw2 st2 t2 =
        { outcome := failureOutcome "Insufficient diamonds for custom choice",
          progress := p, store := st2, new_transactions := [] } := by
  constructor
  · simp [process_choice, h]
  · intro txt gw2 st2 t2 hd
    have hcost : dictGetD (currency_tiers "diamond") "💎" 0 = 1 := rfl
    simp only [process_custom_choice, hcost]
    rw [if_pos hd]

/-- Witness for C2: a player with 3💵 and no diamonds is declined on
both paths with nothing changed. -/
theorem affordability_gate_no_mutation_witness :
    can_afford_choice exPoor exChoice = false ∧
    process_choice exPoor exChoice none exStore 0 =
      { outcome := failureOutcome "Insufficient currency for this choice",
        progress := exPoor, choice := exChoice, store := exStore,
        new_transactions := [] } ∧
    dictGetD (orEmpty exPoor.currency_balances) "💎" 0 < 1 ∧
    process_custom_choice exPoor "Call in an old favor" none exStore 0 =
      { outcome := failureOutcome "Insufficient diamonds for custom choice",
        progress := exPoor, store := exStore, new_transactions := [] } :=
  ⟨by decide,
   (affordability_gate_no_mutation exPoor exChoice none exStore 0 (by decide)).1,
   by decide,
   (affordability_gate_no_mutation exPoor exChoice none exStore 0 (by decide)).2
     "Call in an old favor" none exStore 0 (by decide)⟩

/-- Claim C3 (amended): resolving an already-memoized catalog choice
twice returns the same next-node reference both times and generates no
new node (the node table and the choice are untouched), but the
currency cost is debited on each resolution — two resolutions charge
twice, not once. -/
theorem memoized_choice_replay (p : UserProgress) (c : StoryChoice) (nid : Nat)
    (nd : StoryNode) (reqs : CurrencyMap) (gw1 gw2 : Option (Option String))
    (store : NodeStore) (t1 t2 : Nat)
    (hmem : c.next_node_id = some nid)
    (hfind : findNode store nid = some nd)
    (hreq : c.currency_requirements = some reqs)
    (h1 : can_afford_choice p c = true)
    (h2 : can_afford_choice (process_choice p c gw1 store t1).progress c = true) :
    (process_choice p c gw1 store t1).outcome = okOutcome nd ∧
    (process_choice (process_choice p c gw1 store t1).progress c gw2
        (process_choice p c gw1 store t1).store t2).outcome = okOutcome nd ∧
    (process_choice p c gw1 store t1).store = store ∧
    (process_choice (process_choice p c gw1 store t1).progress c gw2
        (process_choice p c gw1 store t1).store t2).store = store ∧
    (process_choice p c gw1 store t1).choice = c ∧
    orEmpty (process_choice p c gw1 store t1).progress.currency_balances
      = deductList (orEmpty p.currency_balances) reqs ∧
    orEmpty (process_choice (process_choice p c gw1 store t1).progress c gw2
        (process_choice p c gw1 store t1).store t2).progress.currency_balances
      = deductList
          (orEmpty (process_choice p c gw1 store t1).progress.currency_balances) reqs := by
  have hg : ∀ gw : Option (Option String),
      generate_next_node c gw store = { next := some nd, store := store, choice := c } := by
    intro gw
    unfold generate_next_node
    rw [hmem]
    simp [hfind]
  have shape : ∀ (q : UserProgress) (gw : Option (Option String)) (t : Nat),
      can_afford_choice q c = true →
      process_choice q c gw store t =
        { outcome := okOutcome nd,
          progress :=
            { deduct_currency q reqs with
              current_node_id := some nd.id
              choice_history := (deduct_currency q reqs).choice_history ++
                [{ choice_id := some c.id, choice_text := c.choice_text,
                   timestamp := t, node_id := c.node_id, custom := false }] },
          choice := c, store := store,
          new_transactions := reqs.map (fun kv =>
            { user_id := q.user_id, transaction_type := "choice",
              from_currency := kv.1, amount := kv.2,
              description := "Choice: " ++ c.choice_text.take 50 ++ "...",
              story_node_id := some c.node_id }) } := by
    intro q gw t hq
    simp [process_choice, hq, hreq, hg]
  have e1 := shape p gw1 t1 h1
  have e2 := shape (process_choice p c gw1 store t1).progress gw2 t2 h2
  rw [e1] at e2
  refine ⟨?_, ?_, ?_, ?_, ?_, ?_, ?_⟩
  · rw [e1]
  · rw [e1, e2]
  · rw [e1]
  · rw [e1, e2]
  · rw [e1]
  · rw [e1]
    rfl
  · rw [e1, e2]
    rfl

/-- Witness for C3 (amended) at the concrete memoized scenario. -/
theorem memoized_choice_replay_witness :
    exChoiceMemo.next_node_id = some 2 ∧
    findNode exStore2 2 = some exNode2 ∧
    can_afford_choice exProgress50 exChoiceMemo = true ∧
    (process_choice exProgress50 exChoiceMemo none exStore2 0).outcome = okOutcome exNode2 ∧
    orEmpty (process_choice exProgress50 exChoiceMemo none exStore2 0).progress.currency_balances
      = deductList (orEmpty exProgress50.currency_balances) [("💵", 15)] :=
  ⟨by decide, by decide, by decide,
   (memoized_choice_replay exProgress50 exChoiceMemo 2 exNode2 [("💵", 15)] none none
      exStore2 0 1 (by decide) (by decide) (by decide) (by decide) (by decide)).1,
   (memoized_choice_replay exProgress50 exChoiceMemo 2 exNode2 [("💵", 15)] none none
      exStore2 0 1 (by decide) (by decide) (by decide) (by decide) (by decide)).2.2.2.2.2.1⟩

/-- Claim C5: `create_full_mission` is atomic — with a required field
missing from the gateway result, or with an empty choices list, the
whole operation returns failure and the committed database is unchanged;
more generally every failure outcome leaves the committed database
exactly as it was (the only commit lies on the full success path). -/
theorem create_full_mission_atomicity (user_id : String)
    (giver villain partner rand_char : Character) (ns mo : Option String)
    (d : MissionStoryData) (reward : Nat) (picks : Nat → Nat) (db : Database)
    (h : d.mission_title = none ∨ d.mission_description = none ∨ d.objective = none
       ∨ d.opening_narrative = none ∨ d.choices = none ∨ d.choices = some []) :
    create_full_mission user_id giver villain partner rand_char ns mo (some d)
        reward picks db = (none, db) ∧
    ∀ dataOpt : Option MissionStoryData,
      (create_full_mission user_id giver villain partner rand_char ns mo dataOpt
          reward picks db).1 = none →
      (create_full_mission user_id giver villain partner rand_char ns mo dataOpt
          reward picks db).2 = db := by
  constructor
  · rcases h with h | h | h | h | h | h
    · simp [create_full_mission, required_fields_present, h]
    · simp [create_full_mission, required_fields_present, h]
    · simp [create_full_mission, required_fields_present, h]
    · simp [create_full_mission, required_fields_present, h]
    · simp [create_full_mission, required_fields_present, h]
    · by_cases hr : required_fields_present d = true
      · simp [create_full_mission, hr, h]
      · simp [create_full_mission, hr]
  · intro dataOpt h1
    cases dataOpt with
    | none => simp [create_full_mission]
    | some d' =>
      by_cases hr : required_fields_present d' = true
      · by_cases he : (d'.choices.getD []).isEmpty = true
        · simp [create_full_mission, hr, he]
        · simp [create_full_mission, hr, he] at h1
      · simp [create_full_mission, hr]

/-- Witness for C5: a result with no opening narrative commits nothing. -/
theorem create_full_mission_atomicity_witness :
    exBadData.opening_narrative = none ∧
    create_full_mission "u1" exCharacter exCharacter exCharacter exCharacter
      none none (some exBadData) 0 (fun _ => 0) exDb = (none, exDb) :=
  ⟨by decide,
   (create_full_mission_atomicity "u1" exCharacter exCharacter exCharacter exCharacter
      none none exBadData 0 (fun _ => 0) exDb (by decide)).1⟩

/-- Claim C6: the guest-session merge sums the balances per kind (a kind
on only one side keeps that side's amount), concatenates the choice
histories, and takes the current-node/current-story pointers from the
guest when the guest's current-node pointer is non-null, keeping the
authenticated side's pointers otherwise. -/
theorem session_merge_combines (guest authp : UserProgress)
    (hkeys : ((orEmpty guest.currency_balances).map Prod.fst).Nodup)
    (hzero : guest.current_node_id ≠ some 0) :
    (∀ k, dictGetD (orEmpty (merge_guest_progress guest authp).currency_balances) k 0
        = dictGetD (orEmpty guest.currency_balances) k 0
          + dictGetD (orEmpty authp.currency_balances) k 0) ∧
    (merge_guest_progress guest authp).choice_history
      = authp.choice_history ++ guest.choice_history ∧
    (guest.current_node_id.isSome →
      (merge_guest_progress guest authp).current_node_id = guest.current_node_id ∧
      (merge_guest_progress guest authp).current_story_id = guest.current_story_id) ∧
    (guest.current_node_id = none →
      (merge_guest_progress guest authp).current_node_id = authp.current_node_id ∧
      (merge_guest_progress guest authp).current_story_id = authp.current_story_id) := by
  have hb : (merge_guest_progress guest authp).currency_balances
      = some (merge_currency (orEmpty authp.currency_balances)
          (orEmpty guest.currency_balances)) := by
    unfold merge_guest_progress
    by_cases ht : truthyId guest.current_node_id = true <;> simp [ht]
  refine ⟨?_, ?_, ?_, ?_⟩
  · intro k
    rw [hb]
    show dictGetD (merge_currency (orEmpty authp.currency_balances)
        (orEmpty guest.currency_balances)) k 0 = _
    rw [merge_currency_getD _ _ hkeys k]
    exact add_comm _ _
  · unfold merge_guest_progress
    by_cases ht : truthyId guest.current_node_id = true <;> simp [ht]
  · intro hs
    obtain ⟨n, hn⟩ := Option.isSome_iff_exists.1 hs
    have hn0 : n ≠ 0 := by
      intro h0
      exact hzero (by rw [hn, h0])
    have ht : truthyId guest.current_node_id = true := by
      simp [truthyId, hn, hn0]
    constructor <;> simp [merge_guest_progress, ht]
  · intro h0
    have ht : truthyId guest.current_node_id = false := by
      simp [truthyId, h0]
    constructor <;> simp [merge_guest_progress, ht]

/-- Witness for C6: the spec scenario, guest `{💵:10}` at node 4 merged
into authenticated `{💵:50, 💎:50}` with no current node. -/
theorem session_merge_combines_witness :
    ((orEmpty exGuest.currency_balances).map Prod.fst).Nodup ∧
    exGuest.current_node_id ≠ some 0 ∧
    dictGetD (orEmpty (merge_guest_progress exGuest exAuth).currency_balances) "💵" 0
      = dictGetD (orEmpty exGuest.currency_balances) "💵" 0
        + dictGetD (orEmpty exAuth.currency_balances) "💵" 0 ∧
    dictGetD (orEmpty (merge_guest_progress exGuest exAuth).currency_balances) "💎" 0
      = dictGetD (orEmpty exGuest.currency_balances) "💎" 0
        + dictGetD (orEmpty exAuth.currency_balances) "💎" 0 ∧
    (merge_guest_progress exGuest exAuth).choice_history
      = exAuth.choice_history ++ exGuest.choice_history :=
  ⟨by decide, by decide,
   (session_merge_combines exGuest exAuth (by decide) (by decide)).1 "💵",
   (session_merge_combines exGuest exAuth (by decide) (by decide)).1 "💎",
   (session_merge_combines exGuest exAuth (by decide) (by decide)).2.1⟩

/-- Claim C7: a generated choice whose declared risk level is a
recognized tier is assigned that tier; an unrecognized declared risk
level falls back to the array position (1st to low, 2nd to medium, 3rd
to high); a list of 3 choices declaring `invalid` throughout is assigned
`[low, medium, high]` in order. -/
theorem positional_fallback_tiers :
    (∀ (r : String) (i : Nat), cost_tiers.contains r = true →
        assign_tier (some r) i = r) ∧
    (∀ r : String, cost_tiers.contains r = false →
        assign_tier (some r) 0 = "low" ∧ assign_tier (some r) 1 = "medium"
          ∧ assign_tier (some r) 2 = "high") ∧
    (∀ (node_id nid : Nat) (picks : Nat → Nat) (f0 f1 f2 : ChoiceFields),
        tiersOf (build_mission_choices node_id picks 0 nid
            [ChoiceData.dict f0, ChoiceData.dict f1, ChoiceData.dict f2])
          = [some (assign_tier f0.risk_level 0), some (assign_tier f1.risk_level 1),
             some (assign_tier f2.risk_level 2)]) ∧
    (∀ (node_id nid : Nat) (picks : Nat → Nat),
        tiersOf (build_mission_choices node_id picks 0 nid
            [ChoiceData.dict exFieldsInvalid, ChoiceData.dict exFieldsInvalid,
             ChoiceData.dict exFieldsInvalid])
          = [some "low", some "medium", some "high"]) := by
  refine ⟨?_, ?_, ?_, ?_⟩
  · intro r i h
    have hm : r ∈ cost_tiers := by simpa using h
    simp [assign_tier, hm]
  · intro r h
    have hn : ¬ (cost_tiers.contains ((some r : Option String).getD "medium") = true) := by
      simpa using h
    refine ⟨?_, ?_, ?_⟩ <;> (unfold assign_tier; rw [if_neg hn]; decide)
  · intro node_id nid picks f0 f1 f2
    simp [build_mission_choices, tiersOf]
  · intro node_id nid picks
    simp [build_mission_choices, tiersOf, exFieldsInvalid, exFields, assign_tier,
      cost_tiers]

/-- Witness for C7: recognized and unrecognized declared risk levels. -/
theorem positional_fallback_tiers_witness :
    cost_tiers.contains "high" = true ∧
    assign_tier (some "high") 0 = "high" ∧
    cost_tiers.contains "invalid" = false ∧
    assign_tier (some "invalid") 0 = "low" ∧
    tiersOf (build_mission_choices 1 (fun _ => 0) 0 1
        [ChoiceData.dict exFieldsInvalid, ChoiceData.dict exFieldsInvalid,
         ChoiceData.dict exFieldsInvalid])
      = [some "low", some "medium", some "high"] :=
  ⟨by decide, positional_fallback_tiers.1 "high" 0 (by decide), by decide,
   (positional_fallback_tiers.2.1 "invalid" (by decide)).1,
   positional_fallback_tiers.2.2.2 1 1 (fun _ => 0)⟩

/-- Claim C8: validation truncates a string field that exceeds its
schema limit to exactly the limit length and passes a field at or under
the limit through unchanged; dict entries and array elements are
processed recursively, so the law reaches fields nested inside lists
and sub-objects. -/
theorem truncation_law (k : String) (m : Nat) (s : List Char)
    (h : schemaLimit k = some m) :
    (m < s.length →
      validateEntry k (Json.str s) = (k, Json.str (s.take m))
        ∧ (s.take m).length = m) ∧
    (s.length ≤ m → validateEntry k (Json.str s) = (k, Json.str s)) ∧
    (∀ kvs : List (String × Json),
      validateAndTruncate (Json.obj kvs)
        = Json.obj (kvs.map (fun p => validateEntry p.1 p.2))) ∧
    (∀ xs : List Json,
      validateAndTruncate (Json.arr xs) = Json.arr (xs.map validateAndTruncate)) := by
  refine ⟨?_, ?_, ?_, ?_⟩
  · intro hlt
    constructor
    · simp [validateEntry, h, hlt]
    · simp [List.length_take]
      omega
  · intro hle
    have hnot : ¬ m < s.length := by omega
    simp [validateEntry, h, hnot]
  · intro kvs
    simp [validateAndTruncate, validateObjEntries_eq_map]
  · intro xs
    simp [validateAndTruncate, validateArr_eq_map]

set_option maxRecDepth 4000 in
/-- Witness for C8: the `mood` field, limit 100, on a 150-character and
a 4-character text. -/
theorem truncation_law_witness :
    schemaLimit "mood" = some 100 ∧
    100 < exLongText.length ∧
    validateEntry "mood" (Json.str exLongText)
      = ("mood", Json.str (exLongText.take 100)) ∧
    (exLongText.take 100).length = 100 ∧
    validateEntry "mood" (Json.str exShortText) = ("mood", Json.str exShortText) :=
  ⟨by decide, by decide,
   ((truncation_law "mood" 100 exLongText (by decide)).1 (by decide)).1,
   ((truncation_law "mood" 100 exLongText (by decide)).1 (by decide)).2,
   (truncation_law "mood" 100 exShortText (by decide)).2.1 (by decide)⟩

/-- Claim C10: every catalog choice created by the mission-creation loop
or the node-choice-generation loop — and hence every choice committed by
`generate_choices_for_node` or newly committed by `create_full_mission`
— carries a singleton currency requirement whose kind is listed for the
choice's assigned tier in the static tier table and whose amount is that
tier's fixed amount for the kind: never empty, never more than one kind. -/
theorem catalog_choice_requirements :
    (∀ (node_id : Nat) (picks : Nat → Nat) (i nid : Nat) (cds : List ChoiceData)
        (c : StoryChoice), c ∈ build_mission_choices node_id picks i nid cds →
      tierPricedSingleton c) ∧
    (∀ (node_id : Nat) (picks : Nat → Nat) (i nid : Nat) (cds : List ChoiceData)
        (c : StoryChoice), c ∈ build_node_choices node_id picks i nid cds →
      tierPricedSingleton c) ∧
    (∀ (node : StoryNode) (resp : Option ChoicesResponse) (picks : Nat → Nat)
        (db : Database) (c : StoryChoice),
      c ∈ (generate_choices_for_node node resp picks db).1 → tierPricedSingleton c) ∧
    (∀ (user_id : String) (giver villain partner rand_char : Character)
        (ns mo : Option String) (dataOpt : Option MissionStoryData) (reward : Nat)
        (picks : Nat → Nat) (db : Database) (c : StoryChoice),
      c ∈ (create_full_mission user_id giver villain partner rand_char ns mo dataOpt
            reward picks db).2.choices →
      c ∈ db.choices ∨ tierPricedSingleton c) := by
  have hA : ∀ (node_id : Nat) (picks : Nat → Nat) (i nid : Nat) (cds : List ChoiceData)
      (c : StoryChoice), c ∈ build_mission_choices node_id picks i nid cds →
      tierPricedSingleton c := by
    intro node_id picks i nid cds
    induction cds generalizing i nid with
    | nil =>
      intro c hc
      simp [build_mission_choices] at hc
    | cons hd tl ih =>
      intro c hc
      cases hd with
      | nondict =>
        simp only [build_mission_choices] at hc
        exact ih _ _ c hc
      | dict f =>
        simp only [build_mission_choices] at hc
        rcases List.mem_cons.1 hc with h | h
        · subst h
          have htier := assign_tier_mem_cost_tiers f.risk_level i
          obtain ⟨k, a, hmk, hmemt⟩ := make_requirement_spec (assign_tier f.risk_level i)
            (picks i) (currency_tiers_ne_nil _ htier)
          exact ⟨_, k, a, rfl, htier, by simp [hmk], hmemt⟩
        · exact ih _ _ c h
  have hB : ∀ (node_id : Nat) (picks : Nat → Nat) (i nid : Nat) (cds : List ChoiceData)
      (c : StoryChoice), c ∈ build_node_choices node_id picks i nid cds →
      tierPricedSingleton c := by
    intro node_id picks i nid cds
    induction cds generalizing i nid with
    | nil =>
      intro c hc
      simp [build_node_choices] at hc
    | cons hd tl ih =>
      intro c hc
      cases hd with
      | nondict =>
        simp only [build_node_choices] at hc
        exact ih _ _ c hc
      | dict f =>
        simp only [build_node_choices] at hc
        rcases List.mem_cons.1 hc with h | h
        · subst h
          have htier := assign_tier_mem_cost_tiers f.risk_level i
          obtain ⟨k, a, hmk, hmemt⟩ := make_requirement_spec (assign_tier f.risk_level i)
            (picks i) (currency_tiers_ne_nil _ htier)
          exact ⟨_, k, a, rfl, htier, by simp [hmk], hmemt⟩
        · exact ih _ _ c h
  refine ⟨hA, hB, ?_, ?_⟩
  · intro node resp picks db c hc
    cases resp with
    | none => simp [generate_choices_for_node] at hc
    | some r =>
      simp only [generate_choices_for_node] at hc
      exact hB _ _ _ _ _ _ hc
  · intro user_id giver villain partner rand_char ns mo dataOpt reward picks db c hc
    cases dataOpt with
    | none =>
      exact Or.inl (by simpa [create_full_mission] using hc)
    | some d =>
      by_cases hr : required_fields_present d = true
      · by_cases he : (d.choices.getD []).isEmpty = true
        · exact Or.inl (by simpa [create_full_mission, hr, he] using hc)
        · have hch : (create_full_mission user_id giver villain partner rand_char ns mo
              (some d) reward picks db).2.choices
              = db.choices ++ build_mission_choices db.nextNodeId picks 0 db.nextChoiceId
                  ((d.choices.getD []).take 3) := by
            simp [create_full_mission, hr, he]
          rw [hch] at hc
          rcases List.mem_append.1 hc with h | h
          · exact Or.inl h
          · exact Or.inr (hA _ _ _ _ _ _ h)
      · exact Or.inl (by simpa [create_full_mission, hr] using hc)

/-- Witness for C10: the choice built from `exFields` at position 0. -/
theorem catalog_choice_requirements_witness :
    exBuiltChoice ∈ build_mission_choices 1 (fun _ => 0) 0 1 [ChoiceData.dict exFields] ∧
    tierPricedSingleton exBuiltChoice :=
  ⟨by decide,
   catalog_choice_requirements.1 1 (fun _ => 0) 0 1 [ChoiceData.dict exFields]
     exBuiltChoice (by decide)⟩
